import Mathlib

/-!
Shallow embedding of the chasedow game core (src/main.rs).

The simulation core is translated definition by definition from the Rust
source.  External collaborators (the macroquad window/input layer, the
macroquad_platformer `World` that resolves actor movement, `gen_range`
randomness, textures, audio) are modelled as per-frame oracle inputs, as the
spec's §5/§6 describe them: each frame supplies the elapsed time, the
edge-triggered key states, the player position produced by the World after
movement resolution, and the random coin spawn position.  `f32` values that
the core only stores, adds, subtracts and compares are modelled as exact
rationals.
-/

set_option maxRecDepth 100000

namespace Chasedow

/-- Position/velocity vector: `macroquad::Vec2`, modelled as a pair of
rationals. -/
abbrev Vec2 := ℚ × ℚ

/-- Axis-aligned rectangle, `macroquad::Rect` (origin + width/height). -/
structure Rect where
  x : ℚ
  y : ℚ
  w : ℚ
  h : ℚ

/-- Modelled from the spec: `Rect::overlaps` comes from the external macroquad
crate; spec §3 pins its semantics down as the closed-interval AABB test using
≥/≤, producing overlap exactly when the projections intersect on both axes
(touching edges count). -/
def Rect.overlaps (a b : Rect) : Bool :=
  decide (a.x ≤ b.x + b.w) && decide (a.x + a.w ≥ b.x) &&
  decide (a.y ≤ b.y + b.h) && decide (a.y + a.h ≥ b.y)

/-- Game constant `WINDOW_WIDTH` (src/main.rs line 8). -/
def WINDOW_WIDTH : ℚ := 800

/-- Game constant `WINDOW_HEIGHT` (line 9). -/
def WINDOW_HEIGHT : ℚ := 600

/-- Game constant `SHADOW_FRAMES_DELAY` (line 16). -/
def SHADOW_FRAMES_DELAY : ℕ := 75

/-- Game constant `PLAYER_SIZE = vec2(12.0 * 4., 12.0 * 4.)` (line 19). -/
def PLAYER_SIZE : Vec2 := (12 * 4, 12 * 4)

/-- Game constant `INITIAL_LIVES` (line 38). -/
def INITIAL_LIVES : ℤ := 3

/-- Game constant `INVULNERABILITY_DURATION` (line 39). -/
def INVULNERABILITY_DURATION : ℚ := 3

/-- Game constant `COIN_SIZE = vec2(12.0 * 3., 12.0 * 3.)` (line 43). -/
def COIN_SIZE : Vec2 := (12 * 3, 12 * 3)

/-- Game constant `COIN_SPAWN_INTERVAL` (line 44). -/
def COIN_SPAWN_INTERVAL : ℚ := 3

/-- Game constant `COIN_LIFETIME` (line 45). -/
def COIN_LIFETIME : ℚ := 5

/-- Game constant `COIN_POINTS` (line 46). -/
def COIN_POINTS : ℤ := 10

/-- The position at which `Player::new` adds the player actor to the world:
`world.add_actor(vec2(250.0, 500.0), ...)` (line 567).  This is the player
spawn position of an episode. -/
def PLAYER_SPAWN : Vec2 := (250, 500)

/-- The position every slot of a fresh shadow buffer is pre-filled with:
`vec![vec2(50.0, 500.0); delay_frames]` (line 674). -/
def SHADOW_PREFILL : Vec2 := (50, 500)

/-- `GameScreen` (lines 49-55). -/
inductive GameScreen where
  | MainMenu
  | Playing
  | Paused
  | GameOver
deriving DecidableEq, Repr

/-- `Coin` (lines 844-848); the texture is a rendering resource and carries no
simulation state. -/
structure Coin where
  position : Vec2
  lifetime : ℚ
deriving DecidableEq, Repr

/-- `Coin::update` (lines 863-866): decrement the lifetime by the frame time
and report whether the coin is still alive.  Returns the updated coin together
with the returned boolean. -/
def Coin.update (c : Coin) (dt : ℚ) : Coin × Bool :=
  (⟨c.position, c.lifetime - dt⟩, decide (c.lifetime - dt > 0))

/-- `Coin::collides_with_player` (lines 890-894): full `COIN_SIZE` coin
rectangle against the full player rectangle of the given size. -/
def Coin.collides_with_player (c : Coin) (player_pos : Vec2) (player_size : Vec2) : Bool :=
  let coin_rect : Rect := ⟨c.position.1, c.position.2, COIN_SIZE.1, COIN_SIZE.2⟩
  let player_rect : Rect := ⟨player_pos.1, player_pos.2, player_size.1, player_size.2⟩
  coin_rect.overlaps player_rect

/-- `Shadow` (lines 639-645); texture and sprite are rendering resources and
carry no simulation state. -/
structure Shadow where
  positions : List Vec2
  last_removed_position : Vec2
  delay_frames : ℕ
deriving DecidableEq, Repr

/-- `Shadow::new` (lines 648-680): the position buffer is pre-filled with
`delay_frames` copies of `vec2(50.0, 500.0)`; `last_removed_position` starts
at `vec2(50.0, 100.0)`.  There is no validation of `delay_frames`. -/
def Shadow.new (delay_frames : ℕ) : Shadow :=
  { positions := List.replicate delay_frames SHADOW_PREFILL
    last_removed_position := (50, 100)
    delay_frames := delay_frames }

/-- `Shadow::update` (lines 682-686): `positions.remove(0)` followed by
`positions.push(player_pos)`.  `Vec::remove(0)` on an empty vector panics,
modelled as `none`. -/
def Shadow.update (s : Shadow) (player_pos : Vec2) : Option Shadow :=
  match s.positions with
  | [] => none
  | front :: rest =>
    some { positions := rest ++ [player_pos]
           last_removed_position := front
           delay_frames := s.delay_frames }

/-- The head of the delay buffer, `self.positions.first()`: the position the
shadow currently occupies (used by `draw` and `collides_with_player`). -/
def Shadow.head (s : Shadow) : Option Vec2 :=
  s.positions.head?

/-- `Shadow::collides_with_player` (lines 727-738): both rectangles are built
with `no_margin_x = PLAYER_SIZE.x - 4. * 4.` and
`no_margin_y = PLAYER_SIZE.y - 4. * 4.` (compensating the sprite-sheet
margin); an empty buffer yields `false`. -/
def Shadow.collides_with_player (s : Shadow) (player_pos : Vec2) : Bool :=
  match s.positions.head? with
  | none => false
  | some shadow_pos =>
    let no_margin_x : ℚ := PLAYER_SIZE.1 - 4 * 4
    let no_margin_y : ℚ := PLAYER_SIZE.2 - 4 * 4
    let shadow_rect : Rect := ⟨shadow_pos.1, shadow_pos.2, no_margin_x, no_margin_y⟩
    let player_rect : Rect := ⟨player_pos.1, player_pos.2, no_margin_x, no_margin_y⟩
    shadow_rect.overlaps player_rect

/-- Feeding a whole sequence of player positions through `Shadow::update`,
one advance per element; propagates the panic case. -/
def Shadow.run (s : Shadow) : List Vec2 → Option Shadow
  | [] => some s
  | p :: ps =>
    match s.update p with
    | none => none
    | some s' => s'.run ps

/-- The oracle inputs one frame of `GameState::update` consumes from the
external collaborators: the frame time, the edge-triggered key states read by
the screen machines, the player position as resolved by the external
`macroquad_platformer::World` after `platform.update` and `player.update`
(read back by `world.actor_pos` at line 253, before the boundary clamp), and
the random position `spawn_coin` would use this frame. -/
structure FrameInput where
  dt : ℚ
  esc_pressed : Bool
  space_pressed : Bool
  raw_player_pos : Vec2
  coin_spawn_pos : Vec2
deriving DecidableEq, Repr

/-- The simulation-state fields of `GameState` (lines 104-120).  `world`,
`platforms` and `audio` are external collaborators; the player's stored state
reduces to the world actor position (`player_pos`), since the player's speed
is recomputed from input by `handle_movement` before every move and is
otherwise only consumed by the external `World` — the boundary clamp's zeroing
of `speed.x` has no further modelled observable effect. -/
structure GameState where
  player_pos : Vec2
  shadow : Shadow
  score : ℚ
  screen : GameScreen
  high_score : ℚ
  lives : ℤ
  invulnerable_timer : ℚ
  is_invulnerable : Bool
  coins : List Coin
  coin_spawn_timer : ℚ
  coin_points : ℤ
deriving DecidableEq, Repr

/-- `GameState::new` (lines 123-146): fresh world with the player at
`PLAYER_SPAWN`, a shadow with `SHADOW_FRAMES_DELAY` slots, starting on the
main menu. -/
def GameState.new : GameState :=
  { player_pos := PLAYER_SPAWN
    shadow := Shadow.new SHADOW_FRAMES_DELAY
    score := 0
    screen := GameScreen.MainMenu
    high_score := 0
    lives := INITIAL_LIVES
    invulnerable_timer := 0
    is_invulnerable := false
    coins := []
    coin_spawn_timer := 0
    coin_points := 0 }

/-- `GameState::reset_game` (lines 148-166): commit the score into the high
score if it beats it, rebuild world/player/platforms (the player actor is
re-added at `PLAYER_SPAWN`), construct the shadow with the literal `25`, and
zero score, lives, timers, coins and coin points.  Neither `screen` nor
`is_invulnerable` is touched. -/
def GameState.reset_game (gs : GameState) : GameState :=
  { gs with
    high_score := if gs.score > gs.high_score then gs.score else gs.high_score
    player_pos := PLAYER_SPAWN
    shadow := Shadow.new 25
    score := 0
    lives := INITIAL_LIVES
    invulnerable_timer := 0
    coins := []
    coin_spawn_timer := 0
    coin_points := 0 }

/-- `GameState::handle_shadow_collision` (lines 168-182): if the
invulnerability timer is not running, lose a life; at zero lives switch to the
game-over screen, otherwise start the invulnerability countdown.  The
"optional reposition" reads the actor position and writes it back unchanged,
a no-op. -/
def GameState.handle_shadow_collision (gs : GameState) : GameState :=
  if gs.invulnerable_timer ≤ 0 then
    if gs.lives - 1 ≤ 0 then
      { gs with lives := gs.lives - 1, screen := GameScreen.GameOver }
    else
      { gs with lives := gs.lives - 1, invulnerable_timer := INVULNERABILITY_DURATION }
  else
    gs

/-- The coin update-and-removal loop of `update_playing` (lines 218-228).
The Rust loop walks the vector with an explicit index: `coins[i].update()`
mutates the coin in place, an expired or collected coin is removed via
`Vec::remove(i)` without advancing `i`, otherwise `i` is incremented — so
each entry of the original vector is processed exactly once, in order, which
is what this structural recursion expresses.  Returns the surviving coins and
the points gained (`COIN_POINTS` per collected coin). -/
def coins_frame (player_pos : Vec2) (dt : ℚ) : List Coin → List Coin × ℤ
  | [] => ([], 0)
  | c :: rest =>
    let u := c.update dt
    if u.2 then
      if u.1.collides_with_player player_pos PLAYER_SIZE then
        let r := coins_frame player_pos dt rest
        (r.1, r.2 + COIN_POINTS)
      else
        let r := coins_frame player_pos dt rest
        (u.1 :: r.1, r.2)
    else
      coins_frame player_pos dt rest

/-- The window-boundary clamp of the player's x coordinate
(lines 253-262): snap to `0` on the left and to
`WINDOW_WIDTH - PLAYER_SIZE.x` on the right.  The y coordinate has no
counterpart in the source. -/
def clamp_player_x (x : ℚ) : ℚ :=
  if x < 0 then 0
  else if x > WINDOW_WIDTH - PLAYER_SIZE.1 then WINDOW_WIDTH - PLAYER_SIZE.1
  else x

/-- The player position `update_playing` works with after the boundary clamp:
x clamped, y passed through. -/
def FrameInput.player_pos (inp : FrameInput) : Vec2 :=
  (clamp_player_x inp.raw_player_pos.1, inp.raw_player_pos.2)

/-- The coin part of `update_playing` (lines 209-228): decrement the spawn
timer, push a fresh coin at the oracle position when it reaches zero (the new
coin is in the vector before the update loop runs), then run the
update/collection loop against the actor position read at line 217 — before
this frame's movement. -/
def GameState.coin_phase (gs : GameState) (inp : FrameInput) : GameState :=
  let t := gs.coin_spawn_timer - inp.dt
  let coins0 := if t ≤ 0 then gs.coins ++ [⟨inp.coin_spawn_pos, COIN_LIFETIME⟩] else gs.coins
  let cst := if t ≤ 0 then COIN_SPAWN_INTERVAL else t
  let cr := coins_frame gs.player_pos inp.dt coins0
  { gs with
    coins := cr.1
    coin_points := gs.coin_points + cr.2
    coin_spawn_timer := cst }

/-- The invulnerability decay of `update_playing` (lines 230-237): while the
flag is set, the timer decreases by the frame time; at zero or below, the
flag is cleared and the timer pinned to zero. -/
def GameState.invuln_phase (gs : GameState) (inp : FrameInput) : GameState :=
  if gs.is_invulnerable then
    if gs.invulnerable_timer - inp.dt ≤ 0 then
      { gs with is_invulnerable := false, invulnerable_timer := 0 }
    else
      { gs with invulnerable_timer := gs.invulnerable_timer - inp.dt }
  else
    gs

/-- `GameState::update_playing` (lines 205-273), in source order: the coin
phase, the invulnerability decay, then on Escape switch to Paused and return
early (platforms, player, shadow and score untouched); otherwise let the
external World resolve platform and player movement (the resulting actor
position is the `raw_player_pos` oracle), clamp it to the window, advance the
shadow with the clamped position, on shadow contact set `is_invulnerable` and
run `handle_shadow_collision`, and finally add the frame time to the score.
The shadow advance panics on an empty buffer, modelled as `none`. -/
def GameState.update_playing (gs : GameState) (inp : FrameInput) : Option GameState :=
  let gs1 := (gs.coin_phase inp).invuln_phase inp
  if inp.esc_pressed then
    some { gs1 with screen := GameScreen.Paused }
  else
    let ppos := inp.player_pos
    match gs1.shadow.update ppos with
    | none => none
    | some sh' =>
      let gs2 := { gs1 with player_pos := ppos, shadow := sh' }
      let gs3 :=
        if sh'.collides_with_player ppos then
          ({ gs2 with is_invulnerable := true } : GameState).handle_shadow_collision
        else
          gs2
      some { gs3 with score := gs3.score + inp.dt }

/-- `GameState::update` (lines 184-191) together with the per-screen handlers
`update_paused` (lines 275-279), `update_main_menu` (lines 281-286) and
`update_game_over` (lines 288-295). -/
def GameState.update (gs : GameState) (inp : FrameInput) : Option GameState :=
  match gs.screen with
  | GameScreen.Playing => gs.update_playing inp
  | GameScreen.Paused =>
    some (if inp.esc_pressed then { gs with screen := GameScreen.Playing } else gs)
  | GameScreen.MainMenu =>
    some (if inp.space_pressed then
            { gs.reset_game with screen := GameScreen.Playing }
          else gs)
  | GameScreen.GameOver =>
    some (if inp.space_pressed then
            { gs.reset_game with screen := GameScreen.Playing }
          else if inp.esc_pressed then
            { gs with screen := GameScreen.MainMenu }
          else gs)

/-- Iterated frame loop: `GameState::update` once per frame input, stopping
when a frame panics. -/
def GameState.run (gs : GameState) : List FrameInput → Option GameState
  | [] => some gs
  | inp :: inps =>
    match gs.update inp with
    | none => none
    | some gs' => gs'.run inps

/-- Iterating only the coin loop over a sequence of frames, each frame given
by the player position used for the overlap test and the frame time; total
points gained are accumulated.  This isolates the collectible lifecycle of a
set of coins across frames. -/
def coins_run : List (Vec2 × ℚ) → List Coin → List Coin × ℤ
  | [], cs => (cs, 0)
  | f :: fs, cs =>
    let r := coins_frame f.1 f.2 cs
    let r' := coins_run fs r.1
    (r'.1, r.2 + r'.2)

/-- A single frame's coin tick: the updated coin `Coin::update` stores back. -/
def coin_tick (dt : ℚ) (c : Coin) : Coin :=
  (c.update dt).1

/-- Total elapsed time of a sequence of coin-loop frames. -/
def sum_dt (fs : List (Vec2 × ℚ)) : ℚ :=
  (fs.map Prod.snd).sum

/-- The sprite-sheet margin the shadow collision compensates for:
`4. * 4.` pixels on each side of the drawn sprite (lines 730-731). -/
def SPRITE_MARGIN : ℚ := 4 * 4

/-- The closed intersection of the two drawn `PLAYER_SIZE` sprites (one at
`sp`, one at `pp`) is disjoint from the central region of the sprite drawn at
`q` — the part of that sprite further than `SPRITE_MARGIN` from its boundary.
On each axis the intersection spans `[max, min + size]`; disjointness from
the closed central interval `[q + margin, q + size - margin]` on either axis
makes the whole overlap region lie inside the outer margins. -/
def sprite_overlap_avoids_center (q sp pp : Vec2) : Prop :=
  min sp.1 pp.1 + PLAYER_SIZE.1 < q.1 + SPRITE_MARGIN ∨
  q.1 + (PLAYER_SIZE.1 - SPRITE_MARGIN) < max sp.1 pp.1 ∨
  min sp.2 pp.2 + PLAYER_SIZE.2 < q.2 + SPRITE_MARGIN ∨
  q.2 + (PLAYER_SIZE.2 - SPRITE_MARGIN) < max sp.2 pp.2

/-- The drawn `PLAYER_SIZE` sprites of the shadow (at `sp`) and the player
(at `pp`) overlap, but only within the outer `SPRITE_MARGIN`-wide margins of
both sprites. -/
def margin_only_overlap (sp pp : Vec2) : Prop :=
  Rect.overlaps ⟨sp.1, sp.2, PLAYER_SIZE.1, PLAYER_SIZE.2⟩
      ⟨pp.1, pp.2, PLAYER_SIZE.1, PLAYER_SIZE.2⟩ = true ∧
  sprite_overlap_avoids_center sp sp pp ∧
  sprite_overlap_avoids_center pp sp pp

/-- Frame input that presses Space on the menu/game-over screens. -/
def menu_start : FrameInput :=
  { dt := 1, esc_pressed := false, space_pressed := true
    raw_player_pos := (100, 500), coin_spawn_pos := (700, 100) }

/-- Frame input of a playing frame in which the World leaves the player
standing at `(100, 500)` (well inside the window) for one second. -/
def standstill : FrameInput :=
  { dt := 1, esc_pressed := false, space_pressed := false
    raw_player_pos := (100, 500), coin_spawn_pos := (700, 100) }

/-- Input schedule: start the game from the main menu, then 31 frames of the
player standing still.  After 25 standstill frames the 25-deep shadow buffer
has flushed and the shadow sits exactly on the player, so contact fires every
following frame; the invulnerability windows then burn down the three lives
(hits on frames 25, 28 and 31 of play). -/
def c3_inputs : List FrameInput :=
  menu_start :: List.replicate 31 standstill

/-- A minimal Playing state: one-slot shadow sitting at the origin, player
actor at the origin, three lives, no active invulnerability, no coins, coin
spawn timer far from firing. -/
def gs_playing_base : GameState :=
  { player_pos := (0, 0)
    shadow := { positions := [(0, 0)], last_removed_position := (50, 100), delay_frames := 1 }
    score := 0
    screen := GameScreen.Playing
    high_score := 0
    lives := 3
    invulnerable_timer := 0
    is_invulnerable := false
    coins := []
    coin_spawn_timer := 5
    coin_points := 0 }

/-- A playing frame whose resolved player position is the origin: the one-slot
shadow then advances onto the player and contact fires. -/
def inp_contact : FrameInput :=
  { dt := 1, esc_pressed := false, space_pressed := false
    raw_player_pos := (0, 0), coin_spawn_pos := (700, 100) }

/-- The shadow after `gs_playing_base.shadow` advances with the origin. -/
def sh_contact : Shadow :=
  { positions := [(0, 0)], last_removed_position := (0, 0), delay_frames := 1 }

/-- `gs_playing_base` down to its last life. -/
def gs_one_life : GameState :=
  { gs_playing_base with lives := 1 }

/-- `gs_playing_base` in a running invulnerability window (timer at 3). -/
def gs_invuln : GameState :=
  { gs_playing_base with is_invulnerable := true, invulnerable_timer := 3 }

/-- Invulnerable state whose timer expires on the next one-second frame, with
a two-slot shadow far from the player so no contact fires that frame. -/
def gs_invuln_end : GameState :=
  { gs_playing_base with
    shadow := { positions := [(500, 0), (600, 0)], last_removed_position := (50, 100)
                delay_frames := 2 }
    is_invulnerable := true
    invulnerable_timer := 1 }

/-- The `gs_invuln_end` shadow after advancing with the origin. -/
def sh_no_contact : Shadow :=
  { positions := [(600, 0), (0, 0)], last_removed_position := (500, 0), delay_frames := 2 }

/-- Playing state holding one live coin at the origin under the player, with
a two-slot shadow far away so the coin collection is the only event of the
frame. -/
def gs_coin_state : GameState :=
  { gs_playing_base with
    shadow := { positions := [(500, 0), (600, 0)], last_removed_position := (50, 100)
                delay_frames := 2 }
    coins := [{ position := (0, 0), lifetime := 5 }] }

/-- A playing frame that moves the player away from the coin's cell; the coin
overlap test uses the pre-movement actor position, so the coin at the origin
is still collected. -/
def inp_coin : FrameInput :=
  { dt := 1, esc_pressed := false, space_pressed := false
    raw_player_pos := (200, 200), coin_spawn_pos := (700, 100) }

/-- A playing frame whose World-resolved player position is far above the
window top (as after a jump from a high platform): x in bounds, y = -100. -/
def inp_oob_y : FrameInput :=
  { dt := 1, esc_pressed := false, space_pressed := false
    raw_player_pos := (100, -100), coin_spawn_pos := (700, 100) }

/-- A playing frame whose World-resolved player position is beyond the right
window edge, so the clamp snaps it back. -/
def inp_oob_x : FrameInput :=
  { dt := 1, esc_pressed := false, space_pressed := false
    raw_player_pos := (900, 300), coin_spawn_pos := (700, 100) }

/-! Helper lemmas about the update phases. -/

theorem coin_phase_shadow (gs : GameState) (inp : FrameInput) :
    (gs.coin_phase inp).shadow = gs.shadow := rfl

theorem coin_phase_screen (gs : GameState) (inp : FrameInput) :
    (gs.coin_phase inp).screen = gs.screen := rfl

theorem coin_phase_lives (gs : GameState) (inp : FrameInput) :
    (gs.coin_phase inp).lives = gs.lives := rfl

theorem coin_phase_flag (gs : GameState) (inp : FrameInput) :
    (gs.coin_phase inp).is_invulnerable = gs.is_invulnerable := rfl

theorem coin_phase_timer (gs : GameState) (inp : FrameInput) :
    (gs.coin_phase inp).invulnerable_timer = gs.invulnerable_timer := rfl

theorem coin_phase_score (gs : GameState) (inp : FrameInput) :
    (gs.coin_phase inp).score = gs.score := rfl

theorem coin_phase_high_score (gs : GameState) (inp : FrameInput) :
    (gs.coin_phase inp).high_score = gs.high_score := rfl

theorem invuln_phase_shadow (gs : GameState) (inp : FrameInput) :
    (gs.invuln_phase inp).shadow = gs.shadow := by
  unfold GameState.invuln_phase
  split_ifs <;> rfl

theorem invuln_phase_screen (gs : GameState) (inp : FrameInput) :
    (gs.invuln_phase inp).screen = gs.screen := by
  unfold GameState.invuln_phase
  split_ifs <;> rfl

theorem invuln_phase_lives (gs : GameState) (inp : FrameInput) :
    (gs.invuln_phase inp).lives = gs.lives := by
  unfold GameState.invuln_phase
  split_ifs <;> rfl

theorem invuln_phase_score (gs : GameState) (inp : FrameInput) :
    (gs.invuln_phase inp).score = gs.score := by
  unfold GameState.invuln_phase
  split_ifs <;> rfl

theorem invuln_phase_of_safe (gs : GameState) (inp : FrameInput)
    (h : gs.is_invulnerable = false) : gs.invuln_phase inp = gs := by
  unfold GameState.invuln_phase
  rw [h]
  simp

theorem invuln_phase_of_running (gs : GameState) (inp : FrameInput)
    (h : gs.is_invulnerable = true) (h2 : 0 < gs.invulnerable_timer - inp.dt) :
    gs.invuln_phase inp = { gs with invulnerable_timer := gs.invulnerable_timer - inp.dt } := by
  unfold GameState.invuln_phase
  rw [h]
  simp [not_le.mpr h2]

theorem invuln_phase_of_expired (gs : GameState) (inp : FrameInput)
    (h : gs.is_invulnerable = true) (h2 : gs.invulnerable_timer - inp.dt ≤ 0) :
    gs.invuln_phase inp = { gs with is_invulnerable := false, invulnerable_timer := 0 } := by
  unfold GameState.invuln_phase
  rw [h]
  simp [h2]

theorem handle_shadow_collision_of_running (gs : GameState)
    (h : ¬ gs.invulnerable_timer ≤ 0) :
    gs.handle_shadow_collision = gs := by
  unfold GameState.handle_shadow_collision
  rw [if_neg h]

theorem handle_shadow_collision_of_hit (gs : GameState)
    (h : gs.invulnerable_timer ≤ 0) (h2 : ¬ gs.lives - 1 ≤ 0) :
    gs.handle_shadow_collision =
      { gs with lives := gs.lives - 1, invulnerable_timer := INVULNERABILITY_DURATION } := by
  unfold GameState.handle_shadow_collision
  rw [if_pos h, if_neg h2]

theorem handle_shadow_collision_of_depleted (gs : GameState)
    (h : gs.invulnerable_timer ≤ 0) (h2 : gs.lives - 1 ≤ 0) :
    gs.handle_shadow_collision =
      { gs with lives := gs.lives - 1, screen := GameScreen.GameOver } := by
  unfold GameState.handle_shadow_collision
  rw [if_pos h, if_pos h2]

theorem update_playing_main_path (gs : GameState) (inp : FrameInput) (sh' : Shadow)
    (hesc : inp.esc_pressed = false)
    (hsh : gs.shadow.update inp.player_pos = some sh') :
    gs.update_playing inp =
      (let gs1 := (gs.coin_phase inp).invuln_phase inp
       let gs2 := { gs1 with player_pos := inp.player_pos, shadow := sh' }
       let gs3 :=
         if sh'.collides_with_player inp.player_pos then
           ({ gs2 with is_invulnerable := true } : GameState).handle_shadow_collision
         else
           gs2
       some { gs3 with score := gs3.score + inp.dt }) := by
  unfold GameState.update_playing
  rw [hesc]
  have hs : ((gs.coin_phase inp).invuln_phase inp).shadow = gs.shadow := by
    rw [invuln_phase_shadow, coin_phase_shadow]
  simp only [Bool.false_eq_true, if_false, hs, hsh]

/-! Claim theorems. -/

/-- C8: constructing the delay buffer with `delay_frames = 0` is NOT rejected:
`Shadow::new(0)` succeeds and yields a zero-length buffer, the first
`Shadow::update` on it panics (`Vec::remove(0)` on an empty vector, modelled
as `none`), and `head` is undefined (`None`) — the code evaluated at the
failing input the claim (and spec §7) rules out. -/
theorem shadow_new_zero_not_rejected :
    (Shadow.new 0).positions = [] ∧
    (Shadow.new 0).update ((0 : ℚ), (0 : ℚ)) = none ∧
    (Shadow.new 0).head = none := by
  decide

/-- C2 counterexample: after a reset the echo buffer's slots all hold the
fixed anchor `(50, 500)` — `Shadow::new` pre-fills with `vec2(50.0, 500.0)` —
while the new player spawn is `(250, 500)`, so the buffer is NOT pre-filled
with the new player spawn position as the claim states. -/
theorem reset_prefill_not_player_spawn :
    (GameState.new.reset_game).shadow.positions =
      List.replicate 25 (((50 : ℚ), (500 : ℚ)) : Vec2) ∧
    (GameState.new.reset_game).player_pos = (((250 : ℚ), (500 : ℚ)) : Vec2) ∧
    (((50 : ℚ), (500 : ℚ)) : Vec2) ≠ (((250 : ℚ), (500 : ℚ)) : Vec2) := by
  decide

/-- C2 (amended): after any state, `reset_game` yields lives equal to
`INITIAL_LIVES`, score 0, a high score equal to the maximum of the previous
high score and the score at reset time, and a 25-slot echo buffer whose every
slot is pre-filled with the fixed anchor position `(50, 500)` — which is not
the player spawn position `(250, 500)` the player actor is re-added at. -/
theorem reset_game_spec (gs : GameState) :
    (gs.reset_game).lives = INITIAL_LIVES ∧
    (gs.reset_game).score = 0 ∧
    (gs.reset_game).high_score = max gs.high_score gs.score ∧
    (gs.reset_game).shadow.positions = List.replicate 25 SHADOW_PREFILL ∧
    (gs.reset_game).player_pos = PLAYER_SPAWN ∧
    SHADOW_PREFILL ≠ PLAYER_SPAWN := by
  refine ⟨rfl, rfl, ?_, rfl, rfl, by decide⟩
  show (if gs.score > gs.high_score then gs.score else gs.high_score) = _
  rcases le_or_lt gs.score gs.high_score with h | h
  · rw [if_neg (not_lt.mpr h), max_eq_left h]
  · rw [if_pos h, max_eq_right h.le]

/-- C2 witness: `reset_game_spec` evaluated at the initial state. -/
theorem reset_game_spec_witness :
    (GameState.new.reset_game).lives = INITIAL_LIVES ∧
    (GameState.new.reset_game).score = 0 ∧
    (GameState.new.reset_game).high_score = max GameState.new.high_score GameState.new.score ∧
    (GameState.new.reset_game).shadow.positions = List.replicate 25 SHADOW_PREFILL ∧
    (GameState.new.reset_game).player_pos = PLAYER_SPAWN ∧
    SHADOW_PREFILL ≠ PLAYER_SPAWN :=
  reset_game_spec GameState.new

/-- C9 counterexample: the claim says the delay length differs between the
first episode and subsequent ones (75 vs 25).  In fact, the 75-frame shadow
of `GameState::new` exists only on the main menu: the very first entry into
Playing already goes through `reset_game`, so the first episode is played
with a 25-frame delay — the same as every other episode, not a different
one. -/
theorem first_episode_delay_25 :
    GameState.new.shadow.delay_frames = 75 ∧
    GameState.new.screen = GameScreen.MainMenu ∧
    (GameState.new.update menu_start).map (fun g => (g.screen, g.shadow.delay_frames)) =
      some (GameScreen.Playing, 25) := by
  decide

/-- C9 (amended): `GameState::new` builds the shadow with
`SHADOW_FRAMES_DELAY = 75`, but that buffer is live only on the main menu;
every entry into Playing from the MainMenu or GameOver screens goes through
`reset_game`, which builds the shadow with the hardcoded 25 — so every
episode, the first included, is played with a 25-frame delay. -/
theorem episode_delay_always_25 (gs : GameState) (inp : FrameInput)
    (hscreen : gs.screen = GameScreen.MainMenu ∨ gs.screen = GameScreen.GameOver)
    (hspace : inp.space_pressed = true) :
    GameState.new.shadow.delay_frames = SHADOW_FRAMES_DELAY ∧
    SHADOW_FRAMES_DELAY = 75 ∧
    (∀ g : GameState, (g.reset_game).shadow.delay_frames = 25) ∧
    ∃ gs', gs.update inp = some gs' ∧ gs'.screen = GameScreen.Playing ∧
      gs'.shadow.delay_frames = 25 := by
  refine ⟨rfl, rfl, fun g => rfl, ?_⟩
  refine ⟨{ gs.reset_game with screen := GameScreen.Playing }, ?_, rfl, rfl⟩
  rcases hscreen with h | h <;> simp [GameState.update, h, hspace]

/-- C9 witness: `episode_delay_always_25` at the initial state with the
start input. -/
theorem episode_delay_always_25_witness :
    GameState.new.screen = GameScreen.MainMenu ∧
    (∃ gs', GameState.new.update menu_start = some gs' ∧
      gs'.screen = GameScreen.Playing ∧ gs'.shadow.delay_frames = 25) :=
  ⟨rfl, (episode_delay_always_25 GameState.new menu_start (Or.inl rfl) rfl).2.2.2⟩

/-- C3: the invariant `is_invulnerable ⇔ invulnerable_timer > 0` is violated
in a reachable state.  Concrete run from the initial state: press Space on
the menu, then stand still for 31 one-second frames; the shadow flushes onto
the player and the three lives are burned down; on the fatal contact
`update_playing` sets `is_invulnerable = true` before
`handle_shadow_collision` switches to GameOver without starting the timer,
leaving `is_invulnerable = true` while `invulnerable_timer = 0`. -/
theorem invulnerable_flag_without_timer :
    (GameState.new.run c3_inputs).map
      (fun g => (g.is_invulnerable, g.invulnerable_timer, g.screen, g.lives)) =
    some (true, 0, GameScreen.GameOver, 0) := by
  with_unfolding_all decide

theorem shadow_run_spec (ps : List Vec2) :
    ∀ s : Shadow, s.positions ≠ [] →
      ∃ s', s.run ps = some s' ∧
        s'.positions = (s.positions ++ ps).drop ps.length ∧
        s'.delay_frames = s.delay_frames := by
  induction ps with
  | nil =>
    intro s _
    exact ⟨s, rfl, by simp, rfl⟩
  | cons p ps ih =>
    intro s hs
    match hmatch : s.positions with
    | [] => exact absurd hmatch hs
    | front :: rest =>
      have hupd : s.update p = some ⟨rest ++ [p], front, s.delay_frames⟩ := by
        unfold Shadow.update
        rw [hmatch]
      have hne : (Shadow.mk (rest ++ [p]) front s.delay_frames).positions ≠ [] := by
        simp
      obtain ⟨s', hrun, hpos, hdf⟩ := ih ⟨rest ++ [p], front, s.delay_frames⟩ hne
      refine ⟨s', ?_, ?_, hdf⟩
      · unfold Shadow.run
        rw [hupd]
        exact hrun
      · rw [hpos]
        simp only [List.cons_append, List.length_cons, List.drop_succ_cons,
          List.append_assoc, List.singleton_append, List.nil_append]

/-- C1: for every delay depth `N ≥ 1` and every sequence of `K ≥ N` player
positions fed through `Shadow::update`, the advances all succeed and the
buffer head — the position the shadow occupies, i.e. the first element read
before the next frame's advance — is exactly the position fed `N` advances
before that read point: the `(K - N)`-th input (0-indexed, so the player
position from `N` frames earlier). -/
theorem delay_buffer_head (N : ℕ) (ps : List Vec2) (hN : 1 ≤ N) (hK : N ≤ ps.length) :
    ∃ s', (Shadow.new N).run ps = some s' ∧
      s'.positions.head? = ps[ps.length - N]? := by
  have hne : (Shadow.new N).positions ≠ [] := by
    unfold Shadow.new
    simp only [ne_eq, List.replicate_eq_nil_iff]  -- replicate N _ = [] iff N = 0
    omega
  obtain ⟨s', hrun, hpos, _⟩ := shadow_run_spec ps (Shadow.new N) hne
  refine ⟨s', hrun, ?_⟩
  rw [hpos, List.head?_drop]
  have hlen : (Shadow.new N).positions.length = N := by
    unfold Shadow.new
    simp
  rw [List.getElem?_append_right (by omega : (Shadow.new N).positions.length ≤ ps.length)]
  rw [hlen]

/-- C1 witness: depth 2, three inputs; the head after the three advances is
the second input, the position from two frames before the read point. -/
theorem delay_buffer_head_witness :
    (1 ≤ 2 ∧ 2 ≤ 3) ∧
    ∃ s', (Shadow.new 2).run [((1 : ℚ), (1 : ℚ)), (2, 2), (3, 3)] = some s' ∧
      s'.positions.head? = [(((1 : ℚ), (1 : ℚ)) : Vec2), (2, 2), (3, 3)][3 - 2]? :=
  ⟨⟨by decide, by decide⟩,
   delay_buffer_head 2 [((1 : ℚ), (1 : ℚ)), (2, 2), (3, 3)] (by decide) (by decide)⟩

theorem handle_shadow_collision_shadow (gs : GameState) :
    (gs.handle_shadow_collision).shadow = gs.shadow := by
  unfold GameState.handle_shadow_collision
  split_ifs <;> rfl

theorem PLAYER_SIZE_x : PLAYER_SIZE.1 = 48 := by norm_num [PLAYER_SIZE]

theorem PLAYER_SIZE_y : PLAYER_SIZE.2 = 48 := by norm_num [PLAYER_SIZE]

theorem clamp_player_x_bounds (x : ℚ) :
    0 ≤ clamp_player_x x ∧ clamp_player_x x ≤ WINDOW_WIDTH - PLAYER_SIZE.1 := by
  unfold clamp_player_x
  split_ifs with h1 h2 <;>
    constructor <;>
    first
      | linarith
      | norm_num [WINDOW_WIDTH, PLAYER_SIZE]

theorem update_playing_contact (gs : GameState) (inp : FrameInput) (sh' : Shadow)
    (hesc : inp.esc_pressed = false)
    (hflag : gs.is_invulnerable = false)
    (htimer : gs.invulnerable_timer ≤ 0)
    (hsh : gs.shadow.update inp.player_pos = some sh')
    (hhit : sh'.collides_with_player inp.player_pos = true) :
    gs.update_playing inp = some
      { player_pos := inp.player_pos
        shadow := sh'
        score := gs.score + inp.dt
        screen := if gs.lives - 1 ≤ 0 then GameScreen.GameOver else gs.screen
        high_score := gs.high_score
        lives := gs.lives - 1
        invulnerable_timer :=
          if gs.lives - 1 ≤ 0 then gs.invulnerable_timer else INVULNERABILITY_DURATION
        is_invulnerable := true
        coins := (gs.coin_phase inp).coins
        coin_spawn_timer := (gs.coin_phase inp).coin_spawn_timer
        coin_points := (gs.coin_phase inp).coin_points } := by
  rw [update_playing_main_path gs inp sh' hesc hsh]
  have hflag' : (gs.coin_phase inp).is_invulnerable = false := hflag
  by_cases hdep : gs.lives - 1 ≤ 0 <;>
    simp only [invuln_phase_of_safe _ inp hflag', hhit, if_true,
      GameState.handle_shadow_collision, coin_phase_timer, coin_phase_lives,
      coin_phase_screen, coin_phase_score, coin_phase_high_score,
      htimer, hdep, if_true, if_false]

theorem update_playing_contact_invulnerable (gs : GameState) (inp : FrameInput) (sh' : Shadow)
    (hesc : inp.esc_pressed = false)
    (hflag : gs.is_invulnerable = true)
    (htimer : 0 < gs.invulnerable_timer - inp.dt)
    (hsh : gs.shadow.update inp.player_pos = some sh')
    (hhit : sh'.collides_with_player inp.player_pos = true) :
    gs.update_playing inp = some
      { player_pos := inp.player_pos
        shadow := sh'
        score := gs.score + inp.dt
        screen := gs.screen
        high_score := gs.high_score
        lives := gs.lives
        invulnerable_timer := gs.invulnerable_timer - inp.dt
        is_invulnerable := true
        coins := (gs.coin_phase inp).coins
        coin_spawn_timer := (gs.coin_phase inp).coin_spawn_timer
        coin_points := (gs.coin_phase inp).coin_points } := by
  rw [update_playing_main_path gs inp sh' hesc hsh]
  have hflag' : (gs.coin_phase inp).is_invulnerable = true := hflag
  have hrun : 0 < (gs.coin_phase inp).invulnerable_timer - inp.dt := htimer
  have hnle : ¬ gs.invulnerable_timer - inp.dt ≤ 0 := not_le.mpr htimer
  simp only [invuln_phase_of_running _ inp hflag' hrun, hhit, if_true,
    GameState.handle_shadow_collision, coin_phase_timer, coin_phase_lives,
    coin_phase_screen, coin_phase_score, coin_phase_high_score,
    hnle, if_true, if_false]

theorem update_playing_no_contact (gs : GameState) (inp : FrameInput) (sh' : Shadow)
    (hesc : inp.esc_pressed = false)
    (hsh : gs.shadow.update inp.player_pos = some sh')
    (hmiss : sh'.collides_with_player inp.player_pos = false) :
    gs.update_playing inp = some
      { (gs.coin_phase inp).invuln_phase inp with
        player_pos := inp.player_pos
        shadow := sh'
        score := gs.score + inp.dt } := by
  rw [update_playing_main_path gs inp sh' hesc hsh]
  simp only [hmiss, Bool.false_eq_true, if_false, invuln_phase_score, coin_phase_score]

/-- C4: the hazard state machine.  (1) From the Safe state (`is_invulnerable`
false, timer 0) with `L > 1` lives, a contact frame yields lives `L - 1`,
the timer set to `INVULNERABILITY_DURATION`, the invulnerable flag set, and
the screen unchanged (no game over).  (2) A contact frame while the timer is
still above zero (after this frame's decay) leaves lives unchanged, the timer
merely decayed.  (3) A frame on which the timer reaches zero (and no contact
occurs) returns the machine to Safe — flag cleared, timer pinned to zero,
lives unchanged; a subsequent contact then falls under (1) and decrements
lives again. -/
theorem hazard_fsm :
    (∀ (gs : GameState) (inp : FrameInput) (sh' : Shadow),
      inp.esc_pressed = false →
      gs.is_invulnerable = false →
      gs.invulnerable_timer = 0 →
      1 < gs.lives →
      gs.shadow.update inp.player_pos = some sh' →
      sh'.collides_with_player inp.player_pos = true →
      ∃ gs', gs.update_playing inp = some gs' ∧
        gs'.lives = gs.lives - 1 ∧
        gs'.invulnerable_timer = INVULNERABILITY_DURATION ∧
        gs'.is_invulnerable = true ∧
        gs'.screen = gs.screen) ∧
    (∀ (gs : GameState) (inp : FrameInput) (sh' : Shadow),
      inp.esc_pressed = false →
      gs.is_invulnerable = true →
      0 < gs.invulnerable_timer - inp.dt →
      gs.shadow.update inp.player_pos = some sh' →
      sh'.collides_with_player inp.player_pos = true →
      ∃ gs', gs.update_playing inp = some gs' ∧
        gs'.lives = gs.lives ∧
        gs'.invulnerable_timer = gs.invulnerable_timer - inp.dt ∧
        gs'.is_invulnerable = true ∧
        gs'.screen = gs.screen) ∧
    (∀ (gs : GameState) (inp : FrameInput) (sh' : Shadow),
      inp.esc_pressed = false →
      gs.is_invulnerable = true →
      gs.invulnerable_timer - inp.dt ≤ 0 →
      gs.shadow.update inp.player_pos = some sh' →
      sh'.collides_with_player inp.player_pos = false →
      ∃ gs', gs.update_playing inp = some gs' ∧
        gs'.is_invulnerable = false ∧
        gs'.invulnerable_timer = 0 ∧
        gs'.lives = gs.lives) := by
  refine ⟨?_, ?_, ?_⟩
  · intro gs inp sh' hesc hflag htimer hlives hsh hhit
    have hdep : ¬ gs.lives - 1 ≤ 0 := by omega
    refine ⟨_, update_playing_contact gs inp sh' hesc hflag (le_of_eq htimer) hsh hhit,
      rfl, ?_, rfl, ?_⟩
    · show (if gs.lives - 1 ≤ 0 then gs.invulnerable_timer else INVULNERABILITY_DURATION) =
        INVULNERABILITY_DURATION
      rw [if_neg hdep]
    · show (if gs.lives - 1 ≤ 0 then GameScreen.GameOver else gs.screen) = gs.screen
      rw [if_neg hdep]
  · intro gs inp sh' hesc hflag htimer hsh hhit
    exact ⟨_, update_playing_contact_invulnerable gs inp sh' hesc hflag htimer hsh hhit,
      rfl, rfl, rfl, rfl⟩
  · intro gs inp sh' hesc hflag htimer hsh hmiss
    have hflag' : (gs.coin_phase inp).is_invulnerable = true := hflag
    have htimer' : (gs.coin_phase inp).invulnerable_timer - inp.dt ≤ 0 := htimer
    have hB := invuln_phase_of_expired _ inp hflag' htimer'
    refine ⟨_, update_playing_no_contact gs inp sh' hesc hsh hmiss, ?_, ?_, ?_⟩
    · show ((gs.coin_phase inp).invuln_phase inp).is_invulnerable = false
      rw [hB]
    · show ((gs.coin_phase inp).invuln_phase inp).invulnerable_timer = 0
      rw [hB]
    · show ((gs.coin_phase inp).invuln_phase inp).lives = gs.lives
      rw [invuln_phase_lives, coin_phase_lives]

/-- C4 witness: the three parts of `hazard_fsm` at concrete states — a Safe
hit at three lives, a contact during a running window, and an expiring window
without contact. -/
theorem hazard_fsm_witness :
    (∃ gs', gs_playing_base.update_playing inp_contact = some gs' ∧
      gs'.lives = gs_playing_base.lives - 1 ∧
      gs'.invulnerable_timer = INVULNERABILITY_DURATION ∧
      gs'.is_invulnerable = true ∧
      gs'.screen = gs_playing_base.screen) ∧
    (∃ gs', gs_invuln.update_playing inp_contact = some gs' ∧
      gs'.lives = gs_invuln.lives ∧
      gs'.invulnerable_timer = gs_invuln.invulnerable_timer - inp_contact.dt ∧
      gs'.is_invulnerable = true ∧
      gs'.screen = gs_invuln.screen) ∧
    (∃ gs', gs_invuln_end.update_playing inp_contact = some gs' ∧
      gs'.is_invulnerable = false ∧
      gs'.invulnerable_timer = 0 ∧
      gs'.lives = gs_invuln_end.lives) :=
  ⟨hazard_fsm.1 gs_playing_base inp_contact sh_contact rfl rfl rfl
      (by with_unfolding_all decide) (by with_unfolding_all decide)
      (by with_unfolding_all decide),
   hazard_fsm.2.1 gs_invuln inp_contact sh_contact rfl rfl
      (by with_unfolding_all decide) (by with_unfolding_all decide)
      (by with_unfolding_all decide),
   hazard_fsm.2.2 gs_invuln_end inp_contact sh_no_contact rfl rfl
      (by with_unfolding_all decide) (by with_unfolding_all decide)
      (by with_unfolding_all decide)⟩

/-- C5 counterexample: from one life in the Safe state, the fatal contact
frame does switch to GameOver — but it also sets `is_invulnerable = true`
(line 268 runs before `handle_shadow_collision`), so the game does not bypass
the Invulnerable flag as the claim's "without entering the Invulnerable
state" asserts; only the timer is never started. -/
theorem fatal_contact_sets_flag :
    (gs_one_life.update_playing inp_contact).map
      (fun g => (g.screen, g.is_invulnerable, g.invulnerable_timer, g.lives)) =
    some (GameScreen.GameOver, true, 0, 0) := by
  with_unfolding_all decide

/-- C5 (amended): from lives = 1 in the Safe state a single contact frame
transitions directly to the GameOver screen with lives 0, and the
invulnerability timer is never started (stays 0) — no invulnerability window
occurs — but the `is_invulnerable` flag is set to true as a side effect of
the contact handler. -/
theorem fatal_contact_game_over (gs : GameState) (inp : FrameInput) (sh' : Shadow)
    (hesc : inp.esc_pressed = false)
    (hflag : gs.is_invulnerable = false)
    (htimer : gs.invulnerable_timer = 0)
    (hlives : gs.lives = 1)
    (hsh : gs.shadow.update inp.player_pos = some sh')
    (hhit : sh'.collides_with_player inp.player_pos = true) :
    ∃ gs', gs.update_playing inp = some gs' ∧
      gs'.screen = GameScreen.GameOver ∧
      gs'.lives = 0 ∧
      gs'.invulnerable_timer = 0 ∧
      gs'.is_invulnerable = true := by
  have hdep : gs.lives - 1 ≤ 0 := by omega
  refine ⟨_, update_playing_contact gs inp sh' hesc hflag (le_of_eq htimer) hsh hhit,
    ?_, ?_, ?_, rfl⟩
  · show (if gs.lives - 1 ≤ 0 then GameScreen.GameOver else gs.screen) = GameScreen.GameOver
    rw [if_pos hdep]
  · show gs.lives - 1 = 0
    omega
  · show (if gs.lives - 1 ≤ 0 then gs.invulnerable_timer else INVULNERABILITY_DURATION) = 0
    rw [if_pos hdep, htimer]

/-- C5 witness: `fatal_contact_game_over` at the concrete one-life state. -/
theorem fatal_contact_game_over_witness :
    ∃ gs', gs_one_life.update_playing inp_contact = some gs' ∧
      gs'.screen = GameScreen.GameOver ∧
      gs'.lives = 0 ∧
      gs'.invulnerable_timer = 0 ∧
      gs'.is_invulnerable = true :=
  fatal_contact_game_over gs_one_life inp_contact sh_contact rfl rfl rfl rfl
    (by with_unfolding_all decide) (by with_unfolding_all decide)

/-- C7 counterexample: only the x coordinate is clamped.  A playing frame
whose World-resolved player position is `(100, -100)` — above the window top,
reachable by jumping from a high platform — stores `(100, -100)` in the echo
buffer: a position outside the screen bounds (its y is negative), refuting
"no position ever stored in the echo buffer is outside the screen bounds". -/
theorem echo_stores_out_of_bounds_y :
    (gs_playing_base.update_playing inp_oob_y).map (fun g => g.shadow.positions) =
      some [((100 : ℚ), (-100 : ℚ))] ∧ ¬ (0 ≤ (-100 : ℚ)) := by
  with_unfolding_all decide

/-- C7 (amended): in every non-paused Playing frame the x-clamp is applied
after the World's movement resolution and before the echo buffer samples the
position: the sample appended to the buffer this frame is exactly the clamped
position, whose x always lies within `[0, WINDOW_WIDTH - PLAYER_SIZE.x]`;
the y coordinate is passed through unclamped, so vertically out-of-screen
positions can be stored. -/
theorem echo_sample_clamped (gs : GameState) (inp : FrameInput)
    (hesc : inp.esc_pressed = false)
    (hne : gs.shadow.positions ≠ []) :
    ∃ gs', gs.update_playing inp = some gs' ∧
      gs'.shadow.positions.getLast? = some inp.player_pos ∧
      inp.player_pos = (clamp_player_x inp.raw_player_pos.1, inp.raw_player_pos.2) ∧
      0 ≤ inp.player_pos.1 ∧ inp.player_pos.1 ≤ WINDOW_WIDTH - PLAYER_SIZE.1 := by
  match hm : gs.shadow.positions with
  | [] => exact absurd hm hne
  | front :: rest =>
    have hsh : gs.shadow.update inp.player_pos =
        some ⟨rest ++ [inp.player_pos], front, gs.shadow.delay_frames⟩ := by
      unfold Shadow.update
      rw [hm]
    rw [update_playing_main_path gs inp _ hesc hsh]
    refine ⟨_, rfl, ?_, rfl, (clamp_player_x_bounds inp.raw_player_pos.1).1,
      (clamp_player_x_bounds inp.raw_player_pos.1).2⟩
    by_cases hc : (Shadow.mk (rest ++ [inp.player_pos]) front
        gs.shadow.delay_frames).collides_with_player inp.player_pos = true
    · simp only [hc, if_true, handle_shadow_collision_shadow]
      exact List.getLast?_concat _
    · simp only [hc, if_false]
      exact List.getLast?_concat _

/-- C7 witness: `echo_sample_clamped` on a frame whose raw position x = 900
is beyond the right edge; the stored sample is the clamped `(752, 300)`. -/
theorem echo_sample_clamped_witness :
    ∃ gs', gs_playing_base.update_playing inp_oob_x = some gs' ∧
      gs'.shadow.positions.getLast? = some inp_oob_x.player_pos ∧
      inp_oob_x.player_pos =
        (clamp_player_x inp_oob_x.raw_player_pos.1, inp_oob_x.raw_player_pos.2) ∧
      0 ≤ inp_oob_x.player_pos.1 ∧
      inp_oob_x.player_pos.1 ≤ WINDOW_WIDTH - PLAYER_SIZE.1 :=
  echo_sample_clamped gs_playing_base inp_oob_x rfl (by with_unfolding_all decide)

/-- C6 counterexample: a frame in which the player's (pre-movement) rectangle
overlaps a live coin removes the coin and adds `COIN_POINTS = 10` to the
separate `coin_points` counter, while `score` — the time-survived scalar the
high score tracks — increases only by the frame time (here from 0 to 1, not
to 10): collection does not increase the score by the fixed point value. -/
theorem coin_adds_points_not_score :
    gs_coin_state.score = 0 ∧ gs_coin_state.coin_points = 0 ∧
    (gs_coin_state.update_playing inp_coin).map
      (fun g => (g.score, g.coin_points, g.coins)) = some (1, 10, []) ∧
    (1 : ℚ) ≠ 0 + 10 := by
  with_unfolding_all decide

theorem sum_dt_nil : sum_dt [] = 0 := rfl

theorem sum_dt_cons (f : Vec2 × ℚ) (fs : List (Vec2 × ℚ)) :
    sum_dt (f :: fs) = f.2 + sum_dt fs := by
  simp [sum_dt]

theorem sum_dt_nonneg (fs : List (Vec2 × ℚ)) (h : ∀ f ∈ fs, 0 ≤ f.2) :
    0 ≤ sum_dt fs := by
  induction fs with
  | nil => simp [sum_dt]
  | cons f fs ih =>
    rw [sum_dt_cons]
    have h0 := h f (by simp)
    have h1 := ih (fun g hg => h g (by simp [hg]))
    linarith

theorem coins_frame_eq (pp : Vec2) (dt : ℚ) (cs : List Coin) :
    coins_frame pp dt cs =
      ((cs.map (coin_tick dt)).filter
          (fun c => decide (0 < c.lifetime) && ! c.collides_with_player pp PLAYER_SIZE),
       COIN_POINTS *
         ((cs.map (coin_tick dt)).filter
            (fun c => decide (0 < c.lifetime) && c.collides_with_player pp PLAYER_SIZE)).length) := by
  induction cs with
  | nil => simp [coins_frame]
  | cons c rest ih =>
    by_cases h1 : 0 < c.lifetime - dt <;>
      by_cases h2 :
        (Coin.mk c.position (c.lifetime - dt)).collides_with_player pp PLAYER_SIZE = true <;>
      simp [coins_frame, Coin.update, coin_tick, ih, h1, h2, Prod.ext_iff] <;>
      ring

theorem coins_run_nil_coins (fs : List (Vec2 × ℚ)) : coins_run fs [] = ([], 0) := by
  induction fs with
  | nil => rfl
  | cons f fs ih => simp [coins_run, coins_frame, ih]

theorem coins_run_append (a b : List (Vec2 × ℚ)) (cs : List Coin) :
    coins_run (a ++ b) cs =
      ((coins_run b (coins_run a cs).1).1,
       (coins_run a cs).2 + (coins_run b (coins_run a cs).1).2) := by
  induction a generalizing cs with
  | nil => simp [coins_run]
  | cons f a ih =>
    simp [coins_run, ih]
    ring

theorem coins_run_single_miss (pos : Vec2) (fs : List (Vec2 × ℚ)) :
    ∀ T : ℚ, 0 < T →
      (∀ f ∈ fs, 0 ≤ f.2) →
      (∀ f ∈ fs, ∀ t : ℚ, (Coin.mk pos t).collides_with_player f.1 PLAYER_SIZE = false) →
      coins_run fs [⟨pos, T⟩] =
        (if 0 < T - sum_dt fs then [⟨pos, T - sum_dt fs⟩] else [], 0) := by
  induction fs with
  | nil =>
    intro T hT _ _
    simp [coins_run, sum_dt, hT]
  | cons f fs ih =>
    intro T hT hdt hmiss
    have hdt0 : 0 ≤ f.2 := hdt f (by simp)
    have hsum : 0 ≤ sum_dt fs := sum_dt_nonneg fs (fun g hg => hdt g (by simp [hg]))
    by_cases halive : 0 < T - f.2
    · have hrec := ih (T - f.2) halive (fun g hg => hdt g (by simp [hg]))
        (fun g hg => hmiss g (by simp [hg]))
      have hm := hmiss f (by simp) (T - f.2)
      simp [coins_run, coins_frame, Coin.update, halive, hm, hrec]
      rw [sum_dt_cons,
        show T - (f.2 + sum_dt fs) = T - f.2 - sum_dt fs from by ring]
      simp only [show (sum_dt fs < T - f.2) ↔ (f.2 + sum_dt fs < T) from
        by constructor <;> intro h <;> linarith]
    · have hdead : ¬ 0 < T - sum_dt (f :: fs) := by
        rw [sum_dt_cons]
        intro hcon
        exact halive (by linarith)
      simp [coins_run, coins_frame, Coin.update, halive, coins_run_nil_coins, hdead]

theorem coins_run_single_hit (pos : Vec2) (T : ℚ) (pre : List (Vec2 × ℚ)) (hit : Vec2 × ℚ)
    (post : List (Vec2 × ℚ))
    (hdtpre : ∀ f ∈ pre, 0 ≤ f.2) (hdthit : 0 ≤ hit.2)
    (hmisspre : ∀ f ∈ pre, ∀ t : ℚ,
      (Coin.mk pos t).collides_with_player f.1 PLAYER_SIZE = false)
    (hhit : ∀ t : ℚ, (Coin.mk pos t).collides_with_player hit.1 PLAYER_SIZE = true)
    (halive : 0 < T - sum_dt pre - hit.2) :
    coins_run (pre ++ hit :: post) [⟨pos, T⟩] = ([], COIN_POINTS) := by
  have hsumpre : 0 ≤ sum_dt pre := sum_dt_nonneg pre hdtpre
  have hTpre : 0 < T - sum_dt pre := by linarith
  have hT : 0 < T := by linarith
  have hpre := coins_run_single_miss pos pre T hT hdtpre hmisspre
  rw [coins_run_append, hpre, if_pos hTpre]
  have hframe : coins_frame hit.1 hit.2 [⟨pos, T - sum_dt pre⟩] = ([], COIN_POINTS) := by
    simp [coins_frame, Coin.update, halive, hhit (T - sum_dt pre - hit.2)]
  simp [coins_run, hframe, coins_run_nil_coins]

/-- C6 (amended): the collectible lifecycle, with the award going to the coin
counter.  (1) Per frame, the index-managed removal loop processes every entry
of the original list exactly once, in order: the surviving list is exactly
the ticked coins that are still alive and do not overlap the player, and the
points gained are exactly `COIN_POINTS` times the number of ticked coins that
are alive and do overlap — collection and expiry are mutually exclusive,
expiry checked first, and the gain goes to `coin_points` (the coin counter,
which is separate from the time-based `score` — see the counterexample).
(2) A coin never overlapping the player is never collected (0 points), is
gone whenever the elapsed time reaches its lifetime `T`, and while still
present its remaining lifetime is positive and equals `T` minus the elapsed
time — so it is removed at or before elapsed time `T` and never collected
after removal.  (3) A coin the player overlaps on some frame before its
expiry is removed exactly once and yields exactly `COIN_POINTS`, regardless
of any later frames. -/
theorem coin_lifecycle :
    (∀ (pp : Vec2) (dt : ℚ) (cs : List Coin),
      coins_frame pp dt cs =
        ((cs.map (coin_tick dt)).filter
            (fun c => decide (0 < c.lifetime) && ! c.collides_with_player pp PLAYER_SIZE),
         COIN_POINTS *
           ((cs.map (coin_tick dt)).filter
              (fun c => decide (0 < c.lifetime) && c.collides_with_player pp PLAYER_SIZE)).length)) ∧
    (∀ (pos : Vec2) (T : ℚ) (fs : List (Vec2 × ℚ)),
      0 < T →
      (∀ f ∈ fs, 0 ≤ f.2) →
      (∀ f ∈ fs, ∀ t : ℚ, (Coin.mk pos t).collides_with_player f.1 PLAYER_SIZE = false) →
      (coins_run fs [⟨pos, T⟩]).2 = 0 ∧
      (T ≤ sum_dt fs → (coins_run fs [⟨pos, T⟩]).1 = []) ∧
      (∀ c ∈ (coins_run fs [⟨pos, T⟩]).1, 0 < c.lifetime ∧ c.lifetime = T - sum_dt fs)) ∧
    (∀ (pos : Vec2) (T : ℚ) (pre : List (Vec2 × ℚ)) (hit : Vec2 × ℚ)
        (post : List (Vec2 × ℚ)),
      (∀ f ∈ pre, 0 ≤ f.2) →
      0 ≤ hit.2 →
      (∀ f ∈ pre, ∀ t : ℚ, (Coin.mk pos t).collides_with_player f.1 PLAYER_SIZE = false) →
      (∀ t : ℚ, (Coin.mk pos t).collides_with_player hit.1 PLAYER_SIZE = true) →
      0 < T - sum_dt pre - hit.2 →
      coins_run (pre ++ hit :: post) [⟨pos, T⟩] = ([], COIN_POINTS)) := by
  refine ⟨coins_frame_eq, ?_, coins_run_single_hit⟩
  intro pos T fs hT hdt hmiss
  have h := coins_run_single_miss pos fs T hT hdt hmiss
  refine ⟨by rw [h], ?_, ?_⟩
  · intro hle
    rw [h, if_neg (by linarith : ¬ 0 < T - sum_dt fs)]
  · intro c hc
    rw [h] at hc
    by_cases hcond : 0 < T - sum_dt fs
    · rw [if_pos hcond] at hc
      simp only [List.mem_singleton] at hc
      rw [hc]
      exact ⟨hcond, rfl⟩
    · rw [if_neg hcond] at hc
      cases hc

theorem coin_origin_hit (t : ℚ) :
    (Coin.mk ((0 : ℚ), (0 : ℚ)) t).collides_with_player
      ((((0 : ℚ), (0 : ℚ)), (1 : ℚ)) : Vec2 × ℚ).1 PLAYER_SIZE = true := by
  show Rect.overlaps ⟨(0 : ℚ), (0 : ℚ), COIN_SIZE.1, COIN_SIZE.2⟩
      ⟨(0 : ℚ), (0 : ℚ), PLAYER_SIZE.1, PLAYER_SIZE.2⟩ = true
  with_unfolding_all decide

/-- C6 witness: part (3) of `coin_lifecycle` for a coin at the origin with
lifetime 5, collected on the first one-second frame by the player standing on
it. -/
theorem coin_lifecycle_witness :
    coins_run ([] ++ (((0 : ℚ), (0 : ℚ)), (1 : ℚ)) :: []) [⟨((0 : ℚ), (0 : ℚ)), 5⟩] =
      ([], COIN_POINTS) :=
  coin_lifecycle.2.2 ((0 : ℚ), (0 : ℚ)) 5 [] (((0 : ℚ), (0 : ℚ)), 1) []
    (fun f hf => absurd hf (List.not_mem_nil f))
    (by norm_num)
    (fun f hf t => absurd hf (List.not_mem_nil f))
    coin_origin_hit
    (by rw [sum_dt_nil]; norm_num)

theorem SPRITE_MARGIN_eq : SPRITE_MARGIN = 16 := by norm_num [SPRITE_MARGIN]

/-- C10: shadow-player contact uses both rectangles shrunk by the 16-pixel
sprite margin in each dimension (32×32 instead of the drawn 48×48), so an
overlap of the drawn sprites that stays inside the outer 16-pixel margins of
both sprites — i.e. its region is disjoint from each sprite's closed central
`[16, 32]²` square — never fires a contact; coin collection instead tests the
full `COIN_SIZE` coin rectangle against the full `PLAYER_SIZE` player
rectangle. -/
theorem shrunken_contact_rects :
    (∀ (s : Shadow) (sp pp : Vec2), s.positions.head? = some sp →
      margin_only_overlap sp pp → s.collides_with_player pp = false) ∧
    PLAYER_SIZE.1 - 4 * 4 = 32 ∧ PLAYER_SIZE.2 - 4 * 4 = 32 ∧
    PLAYER_SIZE.1 = 48 ∧ PLAYER_SIZE.2 = 48 ∧ SPRITE_MARGIN = 16 ∧
    (∀ (c : Coin) (pp : Vec2),
      c.collides_with_player pp PLAYER_SIZE =
        Rect.overlaps ⟨c.position.1, c.position.2, COIN_SIZE.1, COIN_SIZE.2⟩
          ⟨pp.1, pp.2, PLAYER_SIZE.1, PLAYER_SIZE.2⟩) := by
  refine ⟨?_, by norm_num [PLAYER_SIZE], by norm_num [PLAYER_SIZE],
    PLAYER_SIZE_x, PLAYER_SIZE_y, SPRITE_MARGIN_eq, fun c pp => rfl⟩
  intro s sp pp hhead hmargin
  obtain ⟨hov, hcs, hcp⟩ := hmargin
  unfold Shadow.collides_with_player
  rw [hhead]
  show Rect.overlaps ⟨sp.1, sp.2, PLAYER_SIZE.1 - 4 * 4, PLAYER_SIZE.2 - 4 * 4⟩
      ⟨pp.1, pp.2, PLAYER_SIZE.1 - 4 * 4, PLAYER_SIZE.2 - 4 * 4⟩ = false
  rw [Bool.eq_false_iff]
  intro hcol
  simp only [Rect.overlaps, Bool.and_eq_true, decide_eq_true_eq, ge_iff_le] at hcol
  obtain ⟨⟨⟨h1, h2⟩, h3⟩, h4⟩ := hcol
  simp only [PLAYER_SIZE_x, PLAYER_SIZE_y] at h1 h2 h3 h4
  simp only [sprite_overlap_avoids_center, PLAYER_SIZE_x, PLAYER_SIZE_y,
    SPRITE_MARGIN_eq] at hcs
  rcases le_total sp.1 pp.1 with hx | hx <;>
    rcases le_total sp.2 pp.2 with hy | hy <;>
    rcases hcs with d | d | d | d <;>
    simp only [min_def, max_def] at d <;>
    split_ifs at d <;>
    linarith

theorem margin_only_overlap_example :
    margin_only_overlap ((0 : ℚ), (0 : ℚ)) ((40 : ℚ), (0 : ℚ)) := by
  refine ⟨by with_unfolding_all decide, ?_, ?_⟩ <;>
    · unfold sprite_overlap_avoids_center
      norm_num [PLAYER_SIZE, SPRITE_MARGIN, min_def, max_def]

/-- C10 witness: shadow sprite at the origin, player sprite at `(40, 0)`:
the drawn 48×48 sprites overlap on the 8-pixel strip `[40, 48] × [0, 48]`,
inside the shadow's right margin and the player's left margin, and no contact
fires. -/
theorem shrunken_contact_rects_witness :
    margin_only_overlap ((0 : ℚ), (0 : ℚ)) ((40 : ℚ), (0 : ℚ)) ∧
    Shadow.collides_with_player
      ⟨[((0 : ℚ), (0 : ℚ))], (50, 100), 1⟩ ((40 : ℚ), (0 : ℚ)) = false :=
  ⟨margin_only_overlap_example,
   shrunken_contact_rects.1 ⟨[((0 : ℚ), (0 : ℚ))], (50, 100), 1⟩ ((0 : ℚ), (0 : ℚ))
     ((40 : ℚ), (0 : ℚ)) rfl margin_only_overlap_example⟩

end Chasedow
